import Mathlib

/-!
# Verification of the akb48-summarizer core against its specification

Shallow embedding of the core components of the repository:
`VideoOptimizer` (strategy selection and token-cost estimation),
`Summarizer` (dual-summary parsing and short-form validation),
`generate_youtube_simple` (fallback short-form generator),
`ModelManager` (multi-backend fallback orchestration),
`save_results` / the driver's save step, and the ledger skip filter in
`main`.  Durations and token rates are rationals; Python strings are
`List Char` (sequences of Unicode code points); fallible steps return
`Option` / `Except`.
-/

namespace AkbSummarizer

/-! ## VideoOptimizer (src/utils/video_optimizer.py) -/

/-- A processing strategy, mirroring the dict returned by
`VideoOptimizer._strategy_tier1 … _strategy_tier4`:
`speedup`, `fps` (None = default 1.0), `audio_only`, `description`. -/
structure Strategy where
  speedup : ℚ
  fps : Option ℚ
  audio_only : Bool
  description : String
  deriving Repr, DecidableEq

/-- `TOKEN_RATE_VIDEO_FPS1 = 55` tokens/second. -/
def TOKEN_RATE_VIDEO_FPS1 : ℚ := 55

/-- `TOKEN_RATE_VIDEO_FPS05 = 27.5` tokens/second. -/
def TOKEN_RATE_VIDEO_FPS05 : ℚ := 55 / 2

/-- `TOKEN_RATE_AUDIO = 32` tokens/second. -/
def TOKEN_RATE_AUDIO : ℚ := 32

/-- `RATE_FPS1 = TOKEN_RATE_VIDEO_FPS1 + TOKEN_RATE_AUDIO` (87 tokens/s). -/
def RATE_FPS1 : ℚ := TOKEN_RATE_VIDEO_FPS1 + TOKEN_RATE_AUDIO

/-- `RATE_FPS05 = TOKEN_RATE_VIDEO_FPS05 + TOKEN_RATE_AUDIO` (59.5 tokens/s). -/
def RATE_FPS05 : ℚ := TOKEN_RATE_VIDEO_FPS05 + TOKEN_RATE_AUDIO

/-- `RATE_AUDIO_ONLY = TOKEN_RATE_AUDIO` (32 tokens/s). -/
def RATE_AUDIO_ONLY : ℚ := TOKEN_RATE_AUDIO

/-- `TOKEN_LIMIT = 250000`. -/
def TOKEN_LIMIT : ℚ := 250000

/-- `SAFETY_MARGIN = 0.95`. -/
def SAFETY_MARGIN : ℚ := 95 / 100

/-- `EFFECTIVE_LIMIT = TOKEN_LIMIT * SAFETY_MARGIN` (237500). -/
def EFFECTIVE_LIMIT : ℚ := TOKEN_LIMIT * SAFETY_MARGIN

/-- `VideoOptimizer._strategy_tier1`: ≤ 40 min, direct upload. -/
def strategy_tier1 : Strategy :=
  { speedup := 1, fps := none, audio_only := false
    description := "第1档: 直接上传（不处理）" }

/-- `VideoOptimizer._strategy_tier2`: 40–80 min, 2× speedup. -/
def strategy_tier2 : Strategy :=
  { speedup := 2, fps := none, audio_only := false
    description := "第2档: 2倍速" }

/-- `VideoOptimizer._strategy_tier3`: 80–120 min, 2× speedup and fps = 0.5. -/
def strategy_tier3 : Strategy :=
  { speedup := 2, fps := some (1 / 2), audio_only := false
    description := "第3档: 2倍速 + fps=0.5" }

/-- `VideoOptimizer._strategy_tier4`: 120–240 min, 2× speedup, audio only. -/
def strategy_tier4 : Strategy :=
  { speedup := 2, fps := none, audio_only := true
    description := "第4档: 2倍速 + 纯音频" }

/-- `VideoOptimizer._estimate_tokens`: `processed_duration = duration / speedup`,
multiplied by the rate chosen by `audio_only`, then `fps == 0.5`, else fps 1.0.
`duration` is the raw duration in seconds. -/
def estimate_tokens (duration : ℚ) (s : Strategy) : ℚ :=
  let processed_duration := duration / s.speedup
  if s.audio_only then processed_duration * RATE_AUDIO_ONLY
  else if s.fps = some (1 / 2) then processed_duration * RATE_FPS05
  else processed_duration * RATE_FPS1

/-- The value returned by `VideoOptimizer.get_strategy`: the tier strategy dict
with the key `estimated_tokens` added to it. -/
structure StrategyResult where
  strategy : Strategy
  estimated_tokens : ℚ
  deriving Repr, DecidableEq

/-- `VideoOptimizer.get_strategy`, as a function of the probed duration in
seconds (`VideoInfo.duration`; 0.0 when `ffprobe` fails).
`duration_minutes = duration / 60`; returns `none` both when
`duration_minutes == 0` (unknown duration) and when the duration exceeds
240 minutes (`_reject_too_long`, which also returns `None`); otherwise picks
the tier by inclusive upper bounds in ascending order and attaches
`estimated_tokens`.  The over-limit check only prints a warning. -/
def get_strategy (duration : ℚ) : Option StrategyResult :=
  let duration_minutes := duration / 60
  if duration_minutes = 0 then none
  else
    let tier : Option Strategy :=
      if duration_minutes ≤ 40 then some strategy_tier1
      else if duration_minutes ≤ 80 then some strategy_tier2
      else if duration_minutes ≤ 120 then some strategy_tier3
      else if duration_minutes ≤ 240 then some strategy_tier4
      else none
    tier.map fun s => { strategy := s, estimated_tokens := estimate_tokens duration s }

/-! ## Python string primitives

Python strings are embedded as `List Char` (sequences of Unicode code
points).  `strFind` is `str.find` (restricted to the guarded case where the
result is used only when the pattern occurs), `pyStrip` is `str.strip()`,
slices `s[a:b]` / `s[a:]` are `take`/`drop`, `in` is occurrence of the
pattern, `split` is `List.splitOn`, and `sep.join` is `pyJoin`. -/

/-- Index of the first occurrence of `pat` in `s` (`str.find`), `none` when
`pat` does not occur. -/
def strFind (pat : List Char) : List Char → Option Nat
  | [] => if pat.isPrefixOf [] then some 0 else none
  | c :: t =>
    if pat.isPrefixOf (c :: t) then some 0
    else (strFind pat t).map (· + 1)

/-- Python substring containment `pat in s`. -/
def listContains (pat s : List Char) : Bool :=
  (strFind pat s).isSome

/-- `str.strip()`: drop leading and trailing whitespace. -/
def pyStrip (l : List Char) : List Char :=
  (((l.dropWhile Char.isWhitespace).reverse).dropWhile Char.isWhitespace).reverse

/-- Python slice `s[a:b]` for 0 ≤ a, b. -/
def pySlice (s : List Char) (a b : Nat) : List Char :=
  (s.take b).drop a

/-- `sep.join(parts)`. -/
def pyJoin (sep : List Char) : List (List Char) → List Char
  | [] => []
  | [x] => x
  | x :: y :: rest => x ++ sep ++ pyJoin sep (y :: rest)

/-! ## Summarizer (src/core/summarizer.py) -/

/-- The literal `"=== 詳細版 ==="`. -/
def detail_marker : List Char := "=== 詳細版 ===".data

/-- The literal `"=== YouTube版 ==="`. -/
def youtube_marker : List Char := "=== YouTube版 ===".data

/-- `Summarizer.parse_dual_summary`: when both markers occur and the first
occurrence of the YouTube marker is strictly after the first occurrence of
the detail marker, the detailed part is the slice between
end-of-detail-marker and the YouTube marker and the YouTube part is
everything after the YouTube marker, both stripped; otherwise both results
stay the empty string.  (`detail_start >= 0` always holds under the
containment guard, so it is not repeated here.) -/
def parse_dual_summary (full_response : List Char) : List Char × List Char :=
  if listContains detail_marker full_response ∧
      listContains youtube_marker full_response then
    let detail_start := (strFind detail_marker full_response).getD 0
    let youtube_start := (strFind youtube_marker full_response).getD 0
    if youtube_start > detail_start then
      (pyStrip (pySlice full_response (detail_start + detail_marker.length) youtube_start),
       pyStrip (full_response.drop (youtube_start + youtube_marker.length)))
    else ([], [])
  else ([], [])

/-- `Summarizer.validate_youtube_format`: all four required literals occur and
the stripped text starts with 📝. -/
def validate_youtube_format (text : List Char) : Bool :=
  listContains "📝".data text &&
  listContains "💡 この配信の見どころ：".data text &&
  listContains "•".data text &&
  listContains "※ この要約は自動生成されました".data text &&
  "📝".data.isPrefixOf (pyStrip text)

/-! ## Fallback short-form generator (src/utils/format.py, generate_youtube_simple) -/

/-- One attempt of `re.search(r'\*\*([^*]+)\*\*', line)` anchored at the start
of `l`: `**`, then a nonempty run of non-`*` characters, then `**`; yields
the captured group. -/
def matchBoldAt (l : List Char) : Option (List Char) :=
  match l with
  | '*' :: '*' :: rest =>
    let content := rest.takeWhile (fun c => c ≠ '*')
    if content.isEmpty then none
    else
      match rest.dropWhile (fun c => c ≠ '*') with
      | '*' :: '*' :: _ => some content
      | _ => none
  | _ => none

/-- `re.search(r'\*\*([^*]+)\*\*', line)`: the leftmost match's group. -/
def searchBold : List Char → Option (List Char)
  | [] => none
  | c :: t =>
    match matchBoldAt (c :: t) with
    | some g => some g
    | none => searchBold t

/-- The topic-collection loop of `generate_youtube_simple` (format.py lines
84-93): for each line with a bold match, while fewer than 5 topics are
collected, the stripped group is appended when longer than 3 characters. -/
def collectTopics (lines : List (List Char)) : List (List Char) :=
  lines.foldl
    (fun topics line =>
      match searchBold line with
      | some g =>
        if topics.length < 5 then
          let topic := pyStrip g
          if 3 < topic.length then topics ++ [topic] else topics
        else topics
      | none => topics)
    []

/-- The overview-capture loop of `generate_youtube_simple` (format.py lines
96-106): once a line containing `概要` is seen, subsequent non-heading,
non-blank lines are appended (stripped, space-separated) until a line
starting with `#`. -/
def collectOverview (capture : Bool) (acc : List Char) :
    List (List Char) → List Char
  | [] => acc
  | line :: rest =>
    if listContains "## 概要".data line || listContains "概要".data line then
      collectOverview true acc rest
    else if capture then
      if line.head? = some '#' then acc
      else if (pyStrip line).isEmpty then collectOverview capture acc rest
      else collectOverview capture (acc ++ pyStrip line ++ [' ']) rest
    else collectOverview capture acc rest

/-- `generate_youtube_simple` (format.py lines 73-131): extract up to five
bold topics and an overview block (falling back to the first two
`。`-delimited sentences), truncate the overview to 150 characters with an
ellipsis when the raw overview is longer, and assemble the fixed template. -/
def generate_youtube_simple (summary : List Char) : List Char :=
  let lines := summary.splitOn '\n'
  let topics := collectTopics lines
  let overview0 := collectOverview false [] lines
  let overview :=
    if overview0.isEmpty then
      pyJoin "。".data ((summary.splitOn '。').take 2) ++ "。".data
    else overview0
  let topics_text :=
    if ¬topics.isEmpty then
      pyJoin ['\n'] ((topics.take 5).map (fun t => "• ".data ++ t))
    else "• 配信の内容をお楽しみください".data
  "📝 はるpyonの配信まとめ\n\n".data ++
  ((pyStrip overview).take 150 ++
    (if 150 < overview.length then "...".data else [])) ++
  "\n\n💡 この配信の見どころ：\n".data ++
  topics_text ++
  "\n\nぜひご覧ください✨\n\n".data ++
  "※ この要約は自動生成されました".data

/-! ## ModelManager fallback orchestration (src/models/manager.py) -/

/-- One configured summarization backend: its display name, its `type`
(`"gemini"`, `"ollama"`, or unknown), and the outcome of invoking the
external service: an exception (`Except.error`), or a returned value
(`none` models Python `None`, `some ""` an empty result — both falsy). -/
structure ModelCfg where
  name : String
  mtype : String
  behavior : Except Unit (Option String)

/-- One iteration body of `ModelManager.summarize_from_text` (manager.py
lines 81-96): type dispatch (unknown types just continue), with any raised
exception caught and mapped to failure. -/
def try_model (m : ModelCfg) : Option String :=
  if m.mtype = "gemini" ∨ m.mtype = "ollama" then
    match m.behavior with
    | .error _ => none
    | .ok r => r
  else none

/-- Truthiness of the per-backend result (`if summary:`). -/
def truthy_result : Option String → Bool
  | none => false
  | some s => !s.isEmpty

/-- The fallback loop of `ModelManager.summarize_from_text` (manager.py lines
71-99): first truthy result wins and is returned with the backend's name;
an exhausted list yields `(None, None)`. -/
def summarize_from_text : List ModelCfg → Option String × Option String
  | [] => (none, none)
  | m :: rest =>
    match try_model m with
    | some s => if s.isEmpty then summarize_from_text rest else (some s, some m.name)
    | none => summarize_from_text rest

/-- The names of the backends the loop actually invokes: every backend up to
and including the first successful one. -/
def invoked_models : List ModelCfg → List String
  | [] => []
  | m :: rest =>
    if truthy_result (try_model m) then [m.name]
    else m.name :: invoked_models rest

/-! ## GeminiClient video call shape (src/services/gemini.py, src/models/manager.py) -/

/-- The positional parameters of `GeminiClient.generate_from_video`
(gemini.py lines 74-81), excluding `self`. -/
def generate_from_video_params : List String :=
  ["video_path", "prompt", "model_id", "config", "media_resolution"]

/-- The positional arguments passed by `ModelManager.summarize_from_video`
(manager.py lines 148-155), excluding `self`. -/
def summarize_from_video_call_args : List String :=
  ["processed_path", "prompt", "model_id", "config", "media_res", "fps"]

/-- Python positional-argument binding: raises `TypeError` when more
positional arguments are supplied than the callee has parameters. -/
def bind_positional (params args : List String) :
    Except String (List (String × String)) :=
  if params.length < args.length then .error "TypeError"
  else .ok (params.zip args)

/-- The keyword arguments of the `GenerateContentConfig` built for the video
generate call (gemini.py lines 153-159). -/
def generate_video_config_fields : List String :=
  ["temperature", "top_p", "top_k", "max_output_tokens", "media_resolution"]

/-! ## MediaTransform (src/utils/video.py; extract_audio modelled from the spec) -/

/-- A produced media artifact: its path and the tempo factor applied to the
audio stream. -/
structure AudioArtifact where
  path : String
  tempo : ℚ
  deriving Repr, DecidableEq

/-- Modelled from the spec: `extract_audio` is imported from `utils` and
called in `VideoProcessor._process_video_direct` (processor.py lines 10-17
and 102), but no definition of it exists under src/ (it is absent from
utils/video.py and from `utils.__all__`).  Spec §4.2 MediaTransform: for
`audioOnly`, extract an audio-only artifact, applying `speedupFactor` to the
extracted audio when it exceeds 1.0, producing a new temporary file path;
returning the source path unchanged is only the degenerate case when
speedup = 1.0 and no container change is needed — extracting the audio track
of a video always changes the container, so a fresh temporary path is
produced. -/
def extract_audio (video_path : String) (speedup : ℚ) : AudioArtifact :=
  { path := video_path ++ ".audio.tmp.m4a"
    tempo := if 1 < speedup then speedup else 1 }

/-- `speed_up_video` (video.py lines 75-136): identity for speedup 1.0,
otherwise a temporary re-encoded file on encoder success and the original
path on failure (`ffmpeg_ok` stands for the external encoder's exit
status). -/
def speed_up_video (input_path : String) (speedup : ℚ) (ffmpeg_ok : Bool) : String :=
  if speedup = 1 then input_path
  else if ffmpeg_ok then input_path ++ ".speedup.tmp.mp4" else input_path

/-- Strategy realization in `VideoProcessor._process_video_direct`
(processor.py lines 94-108): audio extraction for audio-only strategies,
re-encoding when speedup ≠ 1.0, passthrough otherwise;
`is_temp = (processed_path != original_path)`. -/
def apply_direct_strategy (video_path : String) (s : Strategy) (ffmpeg_ok : Bool) :
    String × Bool :=
  if s.audio_only then
    let p := (extract_audio video_path s.speedup).path
    (p, p != video_path)
  else if s.speedup ≠ 1 then
    let p := speed_up_video video_path s.speedup ffmpeg_ok
    (p, p != video_path)
  else (video_path, false)

/-! ## save_results and the driver's save step (src/utils/file.py, src/core/processor.py) -/

/-- The tuple returned by `save_results` (file.py lines 137-217): the paths
of the three artifacts it writes — detailed report, short-form text file and
JSON record — for a given asset stem and timestamp. -/
def save_results_paths (stem timestamp : String) : List String :=
  [stem ++ "_" ++ timestamp ++ "_detailed.txt",
   stem ++ "_" ++ timestamp ++ "_youtube.txt",
   stem ++ "_" ++ timestamp ++ ".json"]

/-- Python tuple unpacking `a, b = t`: succeeds only when the tuple has
exactly two elements, otherwise raises `ValueError`. -/
def unpack2 {α : Type} (t : List α) : Except String (α × α) :=
  match t with
  | [a, b] => .ok (a, b)
  | _ => .error "ValueError"

/-- The save-and-return tail of `VideoProcessor._process_whisper` (processor.py
lines 228-241, identically `_process_video_direct` lines 155-168) once a
non-empty summary exists: `save_results` writes the artifacts and its result
is unpacked by `txt_file, json_file = save_results(...)`; an exception there
is caught by the surrounding `except`, which makes the method return
`False`. -/
def process_save_step (stem timestamp : String) : Bool :=
  match unpack2 (save_results_paths stem timestamp) with
  | .ok _ => true
  | .error _ => false

/-! ## Ledger skip filter (src/scripts/main.py) -/

/-- One value of the ledger's `videos` mapping. -/
structure LedgerEntry where
  processed_at : String
  success : Bool
  deriving Repr, DecidableEq

/-- The skip filter of `main` (main.py lines 64-74): when `skip_processed`
is set, keep only the files whose canonicalized absolute path is not a key
of the ledger's `videos` mapping — key membership only, the entry's
`success` flag is not consulted.  (`main` assigns the filtered list back
only when it is strictly shorter, which is observationally the same.) -/
def filter_unprocessed (skip_processed : Bool) (abspath : String → String)
    (ledger : List (String × LedgerEntry)) (video_files : List String) :
    List String :=
  if skip_processed then
    video_files.filter (fun vf => !((ledger.map Prod.fst).contains (abspath vf)))
  else video_files

/-! ## Helper lemmas -/

theorem strFind_of_isPrefixOf {pat l : List Char} (h : pat.isPrefixOf l = true) :
    strFind pat l = some 0 := by
  cases l with
  | nil => simp [strFind, h]
  | cons c t => simp [strFind, h]

theorem strFind_isSome_append (pat a b : List Char) :
    (strFind pat (a ++ (pat ++ b))).isSome = true := by
  induction a with
  | nil =>
    rw [List.nil_append,
      strFind_of_isPrefixOf (List.isPrefixOf_iff_prefix.mpr (List.prefix_append pat b))]
    rfl
  | cons c t ih =>
    rw [List.cons_append, strFind]
    split
    · rfl
    · simpa using ih

theorem listContains_of_infix {pat s : List Char} (h : pat <:+: s) :
    listContains pat s = true := by
  obtain ⟨a, b, rfl⟩ := h
  have := strFind_isSome_append pat a b
  simpa [listContains, List.append_assoc] using this

theorem pyStrip_cons_of_not_ws {c : Char} (hc : c.isWhitespace = false)
    (t : List Char) : ∃ r, pyStrip (c :: t) = c :: r := by
  unfold pyStrip
  rw [List.dropWhile_cons, hc, if_neg (by simp), List.reverse_cons,
    List.dropWhile_append]
  split
  · exact ⟨[], by simp [List.dropWhile_cons, hc]⟩
  · exact ⟨(List.dropWhile Char.isWhitespace t.reverse).reverse, by simp⟩

theorem pyJoin_cons (sep x : List Char) (rest : List (List Char)) :
    ∃ r, pyJoin sep (x :: rest) = x ++ r := by
  cases rest with
  | nil => exact ⟨[], by simp [pyJoin]⟩
  | cons y t => exact ⟨sep ++ pyJoin sep (y :: t), by simp [pyJoin]⟩

/-! ## Theorems for the claims -/

/-- C4: for every duration d in (0,240] minutes, `get_strategy` assigns
exactly one tier using inclusive upper bounds checked in ascending order:
d ≤ 40 gives tier 1 (speedup 1.0, no fps override, not audio-only),
40 < d ≤ 80 tier 2 (speedup 2.0), 80 < d ≤ 120 tier 3 (speedup 2.0,
fps 0.5), 120 < d ≤ 240 tier 4 (speedup 2.0, audio only), and every
d > 240 yields the reject sentinel. -/
theorem select_strategy_tier_partition (d : ℚ) :
    (0 < d → d ≤ 40 →
      (get_strategy (60 * d)).map (·.strategy) = some strategy_tier1) ∧
    (40 < d → d ≤ 80 →
      (get_strategy (60 * d)).map (·.strategy) = some strategy_tier2) ∧
    (80 < d → d ≤ 120 →
      (get_strategy (60 * d)).map (·.strategy) = some strategy_tier3) ∧
    (120 < d → d ≤ 240 →
      (get_strategy (60 * d)).map (·.strategy) = some strategy_tier4) ∧
    (240 < d → get_strategy (60 * d) = none) ∧
    (strategy_tier1.speedup = 1 ∧ strategy_tier1.fps = none ∧
      strategy_tier1.audio_only = false) ∧
    (strategy_tier2.speedup = 2 ∧ strategy_tier2.fps = none ∧
      strategy_tier2.audio_only = false) ∧
    (strategy_tier3.speedup = 2 ∧ strategy_tier3.fps = some (1 / 2) ∧
      strategy_tier3.audio_only = false) ∧
    (strategy_tier4.speedup = 2 ∧ strategy_tier4.fps = none ∧
      strategy_tier4.audio_only = true) := by
  have h60 : (60 : ℚ) * d / 60 = d := by ring
  refine ⟨?_, ?_, ?_, ?_, ?_, ⟨rfl, rfl, rfl⟩, ⟨rfl, rfl, rfl⟩, ⟨rfl, rfl, rfl⟩,
    ⟨rfl, rfl, rfl⟩⟩
  · intro h1 h2
    simp only [get_strategy, h60]
    rw [if_neg (ne_of_gt h1), if_pos h2]
    rfl
  · intro h1 h2
    simp only [get_strategy, h60]
    rw [if_neg (by positivity), if_neg (not_le.mpr h1), if_pos h2]
    rfl
  · intro h1 h2
    simp only [get_strategy, h60]
    rw [if_neg (by positivity), if_neg (not_le.mpr (by linarith)),
      if_neg (not_le.mpr h1), if_pos h2]
    rfl
  · intro h1 h2
    simp only [get_strategy, h60]
    rw [if_neg (by positivity), if_neg (not_le.mpr (by linarith)),
      if_neg (not_le.mpr (by linarith)), if_neg (not_le.mpr h1), if_pos h2]
    rfl
  · intro h1
    simp only [get_strategy, h60]
    rw [if_neg (by positivity), if_neg (not_le.mpr (by linarith)),
      if_neg (not_le.mpr (by linarith)), if_neg (not_le.mpr (by linarith)),
      if_neg (not_le.mpr h1)]
    rfl

/-- Witness for C4: the tier bounds at 30, 60, 100, 200 and 300 minutes. -/
theorem select_strategy_tier_partition_witness :
    (get_strategy (60 * 30)).map (·.strategy) = some strategy_tier1 ∧
    (get_strategy (60 * 60)).map (·.strategy) = some strategy_tier2 ∧
    (get_strategy (60 * 100)).map (·.strategy) = some strategy_tier3 ∧
    (get_strategy (60 * 200)).map (·.strategy) = some strategy_tier4 ∧
    get_strategy (60 * 300) = none :=
  ⟨(select_strategy_tier_partition 30).1 (by norm_num) (by norm_num),
   (select_strategy_tier_partition 60).2.1 (by norm_num) (by norm_num),
   (select_strategy_tier_partition 100).2.2.1 (by norm_num) (by norm_num),
   (select_strategy_tier_partition 200).2.2.2.1 (by norm_num) (by norm_num),
   (select_strategy_tier_partition 300).2.2.2.2.1 (by norm_num)⟩

/-- C6, counterexample: the claim fails on the code.  A zero (unknown)
duration yields exactly the same `None` sentinel as an over-long duration
(300 min), not a distinct failure; and the duration d = -1 ≤ 0 is not
reported as the unknown failure at all — the `duration_minutes == 0` guard
misses it and the `<= 40` branch assigns tier 1. -/
theorem select_strategy_failure_modes_counterexample :
    get_strategy 0 = get_strategy (60 * 300) ∧
    (get_strategy (60 * (-1))).map (·.strategy) = some strategy_tier1 := by
  constructor
  · rw [get_strategy, get_strategy]
    norm_num
  · rw [get_strategy]
    norm_num

/-- C6, amended: `get_strategy` never raises; a duration of exactly 0
(metadata read failure) returns `none` — the same sentinel that durations
above 240 minutes produce, so the two failure modes are not distinguished
by the return value — and negative durations are not treated as the unknown
failure but fall into tier 1. -/
theorem select_strategy_failure_modes_amended (d : ℚ) :
    get_strategy 0 = none ∧
    (240 < d → get_strategy (60 * d) = none) ∧
    (240 < d → get_strategy (60 * d) = get_strategy 0) ∧
    (d < 0 → (get_strategy (60 * d)).map (·.strategy) = some strategy_tier1) := by
  have h60 : (60 : ℚ) * d / 60 = d := by ring
  have h0 : get_strategy 0 = none := by rw [get_strategy]; norm_num
  refine ⟨h0, ?_, ?_, ?_⟩
  · intro h1
    simp only [get_strategy, h60]
    rw [if_neg (by intro h; rw [h] at h1; norm_num at h1),
      if_neg (not_le.mpr (by linarith)), if_neg (not_le.mpr (by linarith)),
      if_neg (not_le.mpr (by linarith)), if_neg (not_le.mpr h1)]
    rfl
  · intro h1
    rw [h0]
    simp only [get_strategy, h60]
    rw [if_neg (by intro h; rw [h] at h1; norm_num at h1),
      if_neg (not_le.mpr (by linarith)), if_neg (not_le.mpr (by linarith)),
      if_neg (not_le.mpr (by linarith)), if_neg (not_le.mpr h1)]
    rfl
  · intro h1
    simp only [get_strategy, h60]
    rw [if_neg (ne_of_lt h1), if_pos (by linarith)]
    rfl

/-- Witness for C6 (amended): at 300 and -1 minutes. -/
theorem select_strategy_failure_modes_witness :
    get_strategy 0 = none ∧
    get_strategy (60 * 300) = none ∧
    get_strategy (60 * 300) = get_strategy 0 ∧
    (get_strategy (60 * (-1))).map (·.strategy) = some strategy_tier1 :=
  ⟨(select_strategy_failure_modes_amended 300).1,
   (select_strategy_failure_modes_amended 300).2.1 (by norm_num),
   (select_strategy_failure_modes_amended 300).2.2.1 (by norm_num),
   (select_strategy_failure_modes_amended (-1)).2.2.2 (by norm_num)⟩

/-- C10: for each fixed tier, the estimated token cost
`(rawDuration / speedup) × rate` is monotonically non-decreasing in the raw
duration; and for any fixed positive duration and speedup, the audio-only
estimate (audio rate alone) is strictly lower than the estimate for the
same duration under the default frame rate 1.0 (video rate plus audio
rate). -/
theorem estimate_tokens_monotone_audio_cheaper :
    (∀ s, s ∈ [strategy_tier1, strategy_tier2, strategy_tier3, strategy_tier4] →
      ∀ d1 d2 : ℚ, d1 ≤ d2 → estimate_tokens d1 s ≤ estimate_tokens d2 s) ∧
    (∀ d sp : ℚ, 0 < d → 0 < sp →
      estimate_tokens d ⟨sp, none, true, "audio"⟩ <
      estimate_tokens d ⟨sp, none, false, "fps1"⟩) := by
  constructor
  · intro s hs d1 d2 h
    fin_cases hs <;>
      simp [estimate_tokens, strategy_tier1, strategy_tier2, strategy_tier3,
        strategy_tier4, RATE_FPS1, RATE_FPS05, RATE_AUDIO_ONLY,
        TOKEN_RATE_VIDEO_FPS1, TOKEN_RATE_VIDEO_FPS05, TOKEN_RATE_AUDIO] <;>
      linarith
  · intro d sp hd hsp
    have h0 : 0 < d / sp := div_pos hd hsp
    simp [estimate_tokens, RATE_FPS1, RATE_AUDIO_ONLY,
      TOKEN_RATE_VIDEO_FPS1, TOKEN_RATE_AUDIO]
    nlinarith

/-- Witness for C10: tier 1 at durations 10 ≤ 20 and the audio-only versus
fps-1.0 comparison at duration 60, speedup 2. -/
theorem estimate_tokens_monotone_audio_cheaper_witness :
    estimate_tokens 10 strategy_tier1 ≤ estimate_tokens 20 strategy_tier1 ∧
    estimate_tokens 60 ⟨2, none, true, "audio"⟩ <
      estimate_tokens 60 ⟨2, none, false, "fps1"⟩ :=
  ⟨estimate_tokens_monotone_audio_cheaper.1 strategy_tier1 (by simp) 10 20
      (by norm_num),
   estimate_tokens_monotone_audio_cheaper.2 60 2 (by norm_num) (by norm_num)⟩

/-- C8, counterexample: the round-trip claim fails as stated, at the
concrete input A = `"=== YouTube版 ===x"`, B = `"y"`.  The parser locates
the *first* occurrence of the YouTube marker, which here lies inside A, so
it returns `("", "x=== YouTube版 ===y")` instead of `(A.trim, B.trim)`. -/
theorem parse_dual_summary_roundtrip_counterexample :
    parse_dual_summary
        (detail_marker ++ "=== YouTube版 ===x".data ++ youtube_marker ++ "y".data) ≠
      (pyStrip "=== YouTube版 ===x".data, pyStrip "y".data) := by
  decide

/-- C8, amended: `parse_dual_summary` recovers `(A.trim, B.trim)` from
`DETAIL_MARKER ++ A ++ SHORT_MARKER ++ B` provided the first occurrence of
the short-form marker in the concatenation is the appended one (in
particular whenever A neither contains the marker nor dovetails with it);
and any input missing either marker, or whose first short-form-marker
occurrence is not strictly after the first detailed-marker occurrence,
yields two empty strings. -/
theorem parse_dual_summary_roundtrip :
    (∀ A B : List Char,
      strFind youtube_marker (detail_marker ++ A ++ youtube_marker ++ B) =
        some (detail_marker.length + A.length) →
      parse_dual_summary (detail_marker ++ A ++ youtube_marker ++ B) =
        (pyStrip A, pyStrip B)) ∧
    (∀ s : List Char,
      ¬(listContains detail_marker s = true ∧ listContains youtube_marker s = true ∧
        (strFind detail_marker s).getD 0 < (strFind youtube_marker s).getD 0) →
      parse_dual_summary s = ([], [])) := by
  constructor
  · intro A B hYM
    have hassoc : detail_marker ++ A ++ youtube_marker ++ B =
        detail_marker ++ (A ++ (youtube_marker ++ B)) := by
      simp [List.append_assoc]
    have hpre : detail_marker.isPrefixOf
        (detail_marker ++ A ++ youtube_marker ++ B) = true := by
      rw [List.isPrefixOf_iff_prefix, hassoc]
      exact List.prefix_append _ _
    have hDM : strFind detail_marker (detail_marker ++ A ++ youtube_marker ++ B) =
        some 0 := strFind_of_isPrefixOf hpre
    have hpos : 0 < detail_marker.length + A.length := by
      have : 0 < detail_marker.length := by decide
      omega
    simp only [parse_dual_summary, listContains, hDM, hYM, Option.isSome_some,
      Option.getD_some, gt_iff_lt]
    rw [if_pos ⟨trivial, trivial⟩, if_pos hpos]
    have htake : (detail_marker ++ A ++ youtube_marker ++ B).take
        (detail_marker.length + A.length) = detail_marker ++ A := by
      have h2 : detail_marker ++ A ++ youtube_marker ++ B =
          (detail_marker ++ A) ++ (youtube_marker ++ B) := by
        simp [List.append_assoc]
      rw [h2, ← List.length_append, List.take_left]
    have hdrop : (detail_marker ++ A ++ youtube_marker ++ B).drop
        (detail_marker.length + A.length + youtube_marker.length) = B := by
      have h2 : detail_marker ++ A ++ youtube_marker ++ B =
          ((detail_marker ++ A) ++ youtube_marker) ++ B := rfl
      have h3 : detail_marker.length + A.length + youtube_marker.length =
          ((detail_marker ++ A) ++ youtube_marker).length := by
        simp only [List.length_append]
      rw [h2, h3, List.drop_left]
    rw [Prod.mk.injEq]
    constructor
    · unfold pySlice
      rw [Nat.zero_add, htake, List.drop_left]
    · rw [hdrop]
  · intro s h
    simp only [parse_dual_summary]
    split_ifs with h1 h2
    · exact absurd ⟨h1.1, h1.2, h2⟩ h
    · rfl
    · rfl

/-- Witness for C8 (amended): a well-formed dual response round-trips, and a
marker-free input yields two empty strings. -/
theorem parse_dual_summary_roundtrip_witness :
    parse_dual_summary (detail_marker ++ " A ".data ++ youtube_marker ++ " B ".data) =
      (pyStrip " A ".data, pyStrip " B ".data) ∧
    parse_dual_summary "no markers".data = ([], []) :=
  ⟨parse_dual_summary_roundtrip.1 " A ".data " B ".data (by decide),
   parse_dual_summary_roundtrip.2 "no markers".data (by decide)⟩

theorem listContains_of_isPrefixOf {pat s : List Char}
    (h : pat.isPrefixOf s = true) : listContains pat s = true := by
  rw [listContains, strFind_of_isPrefixOf h]
  rfl

theorem topics_text_head (topics : List (List Char)) :
    ∃ r, (if ¬topics.isEmpty then
        pyJoin ['\n'] ((topics.take 5).map (fun t => "• ".data ++ t))
      else "• 配信の内容をお楽しみください".data) = '•' :: r := by
  cases topics with
  | nil => exact ⟨" 配信の内容をお楽しみください".data, by simp⟩
  | cons x xs =>
    obtain ⟨r', hr'⟩ := pyJoin_cons ['\n'] ("• ".data ++ x)
      ((xs.take 4).map (fun t => "• ".data ++ t))
    refine ⟨' ' :: (x ++ r'), ?_⟩
    simp only [List.isEmpty_cons, Bool.not_false, if_pos, List.take_succ_cons,
      List.map_cons, hr']
    simp

theorem validate_template (ov r : List Char) :
    validate_youtube_format
      ("📝 はるpyonの配信まとめ\n\n".data ++ ov ++
        "\n\n💡 この配信の見どころ：\n".data ++ ('•' :: r) ++
        "\n\nぜひご覧ください✨\n\n".data ++
        "※ この要約は自動生成されました".data) = true := by
  set H := "📝 はるpyonの配信まとめ\n\n".data with hH
  set M := "\n\n💡 この配信の見どころ：\n".data with hM
  set C := "\n\nぜひご覧ください✨\n\n".data with hC
  set D := "※ この要約は自動生成されました".data with hD
  have hcons : H ++ ov ++ M ++ ('•' :: r) ++ C ++ D =
      '📝' :: (" はるpyonの配信まとめ\n\n".data ++ ov ++ M ++ ('•' :: r) ++ C ++ D) := by
    rw [hH]
    simp [List.append_assoc]
  have h1 : listContains "📝".data (H ++ ov ++ M ++ ('•' :: r) ++ C ++ D) = true := by
    apply listContains_of_isPrefixOf
    rw [hcons]
    simp [List.isPrefixOf]
  have h2 : listContains "💡 この配信の見どころ：".data
      (H ++ ov ++ M ++ ('•' :: r) ++ C ++ D) = true := by
    apply listContains_of_infix
    have hin : "💡 この配信の見どころ：".data <:+: M := by decide
    refine hin.trans ?_
    have h := List.infix_append (H ++ ov) M (('•' :: r) ++ (C ++ D))
    simpa [List.append_assoc] using h
  have h3 : listContains "•".data (H ++ ov ++ M ++ ('•' :: r) ++ C ++ D) = true := by
    apply listContains_of_infix
    have hin : "•".data <:+: ('•' :: r) := ⟨[], r, rfl⟩
    refine hin.trans ?_
    have h := List.infix_append (H ++ ov ++ M) ('•' :: r) (C ++ D)
    simpa [List.append_assoc] using h
  have h4 : listContains "※ この要約は自動生成されました".data
      (H ++ ov ++ M ++ ('•' :: r) ++ C ++ D) = true := by
    apply listContains_of_infix
    exact (List.suffix_append (H ++ ov ++ M ++ ('•' :: r) ++ C) D).isInfix
  have h5 : "📝".data.isPrefixOf
      (pyStrip (H ++ ov ++ M ++ ('•' :: r) ++ C ++ D)) = true := by
    rw [hcons]
    obtain ⟨r', hr'⟩ := pyStrip_cons_of_not_ws (c := '📝') (by decide)
      (" はるpyonの配信まとめ\n\n".data ++ ov ++ M ++ ('•' :: r) ++ C ++ D)
    rw [hr']
    simp [List.isPrefixOf]
  rw [validate_youtube_format, h1, h2, h3, h4, h5]
  rfl

/-- C7: for every non-empty input, the fallback short-form generator
`generate_youtube_simple` produces output accepted by
`validate_youtube_format`: it starts with the leading 📝 glyph and contains
the header glyph, the fixed highlights label, a bullet glyph and the fixed
auto-generated disclaimer — including inputs with no bold span and no
Overview heading. -/
theorem derive_short_form_validates (x : List Char) (_hx : x ≠ []) :
    validate_youtube_format (generate_youtube_simple x) = true := by
  obtain ⟨r, hr⟩ := topics_text_head (collectTopics (x.splitOn '\n'))
  simp only [generate_youtube_simple]
  rw [hr]
  exact validate_template _ r

/-- Witness for C7: the generator's output on `"hello"` (no bold span, no
Overview heading) validates. -/
theorem derive_short_form_validates_witness :
    "hello".data ≠ [] ∧
    validate_youtube_format (generate_youtube_simple "hello".data) = true :=
  ⟨by decide, derive_short_form_validates "hello".data (by decide)⟩

/-- C5: in the fallback loop, when every backend before some backend fails
(exception, timeout/empty result, blocked result or unknown type — all of
which make its attempt non-truthy) and that backend returns a non-empty
result, the loop returns that backend's output paired with its name and
invokes no later backend; when every backend fails, the result is the
`(None, None)` sentinel pair. -/
theorem orchestrator_first_success_wins :
    (∀ (failed : List ModelCfg) (succ : ModelCfg) (rest : List ModelCfg) (s : String),
      (∀ m ∈ failed, truthy_result (try_model m) = false) →
      try_model succ = some s → s.isEmpty = false →
      summarize_from_text (failed ++ succ :: rest) = (some s, some succ.name) ∧
      invoked_models (failed ++ succ :: rest) =
        failed.map (fun m => m.name) ++ [succ.name]) ∧
    (∀ models : List ModelCfg,
      (∀ m ∈ models, truthy_result (try_model m) = false) →
      summarize_from_text models = (none, none)) := by
  constructor
  · intro failed succ rest s hfail hsucc hne
    induction failed with
    | nil =>
      simp [summarize_from_text, invoked_models, hsucc, hne, truthy_result]
    | cons m t ih =>
      have hm : truthy_result (try_model m) = false := hfail m (List.mem_cons_self _ _)
      have ht : ∀ m' ∈ t, truthy_result (try_model m') = false := fun m' hm' =>
        hfail m' (List.mem_cons_of_mem _ hm')
      obtain ⟨ih1, ih2⟩ := ih ht
      cases htm : try_model m with
      | none =>
        rw [htm] at hm
        constructor
        · simpa [summarize_from_text, htm] using ih1
        · simpa [invoked_models, htm, truthy_result] using ih2
      | some s' =>
        rw [htm] at hm
        have hse : s'.isEmpty = true := by
          simpa [truthy_result] using hm
        constructor
        · simpa [summarize_from_text, htm, hse] using ih1
        · simpa [invoked_models, htm, truthy_result, hse] using ih2
  · intro models hfail
    induction models with
    | nil => rfl
    | cons m t ih =>
      have hm : truthy_result (try_model m) = false := hfail m (List.mem_cons_self _ _)
      have ht := fun m' hm' => hfail m' (List.mem_cons_of_mem _ hm')
      cases htm : try_model m with
      | none => simpa [summarize_from_text, htm] using ih ht
      | some s' =>
        rw [htm] at hm
        have hse : s'.isEmpty = true := by simpa [truthy_result] using hm
        simpa [summarize_from_text, htm, hse] using ih ht

/-- Witness for C5: a raising backend and an empty-result backend are
skipped, the third backend's output wins and the fourth is never invoked;
and a list of only failing backends yields `(None, None)`. -/
theorem orchestrator_first_success_wins_witness :
    summarize_from_text
        [ModelCfg.mk "backend1" "gemini" (.error ()),
         ModelCfg.mk "backend2" "ollama" (.ok none),
         ModelCfg.mk "backend3" "gemini" (.ok (some "summary")),
         ModelCfg.mk "backend4" "gemini" (.ok (some "later"))] =
      (some "summary", some "backend3") ∧
    invoked_models
        [ModelCfg.mk "backend1" "gemini" (.error ()),
         ModelCfg.mk "backend2" "ollama" (.ok none),
         ModelCfg.mk "backend3" "gemini" (.ok (some "summary")),
         ModelCfg.mk "backend4" "gemini" (.ok (some "later"))] =
      ["backend1", "backend2", "backend3"] ∧
    summarize_from_text
        [ModelCfg.mk "backend1" "gemini" (.error ()),
         ModelCfg.mk "backend2" "ollama" (.ok none)] = (none, none) :=
  ⟨(orchestrator_first_success_wins.1
      [ModelCfg.mk "backend1" "gemini" (.error ()),
       ModelCfg.mk "backend2" "ollama" (.ok none)]
      (ModelCfg.mk "backend3" "gemini" (.ok (some "summary")))
      [ModelCfg.mk "backend4" "gemini" (.ok (some "later"))]
      "summary" (by decide) (by decide) (by decide)).1,
   (orchestrator_first_success_wins.1
      [ModelCfg.mk "backend1" "gemini" (.error ()),
       ModelCfg.mk "backend2" "ollama" (.ok none)]
      (ModelCfg.mk "backend3" "gemini" (.ok (some "summary")))
      [ModelCfg.mk "backend4" "gemini" (.ok (some "later"))]
      "summary" (by decide) (by decide) (by decide)).2,
   orchestrator_first_success_wins.2
      [ModelCfg.mk "backend1" "gemini" (.error ()),
       ModelCfg.mk "backend2" "ollama" (.ok none)] (by decide)⟩

/-- C1: `save_results` does write the three artifacts with the shared naming
stem `{assetStem}_{timestamp}`, but it returns a 3-tuple while both callers
unpack it into two variables (`txt_file, json_file = save_results(...)`),
so the unpacking raises `ValueError`, the surrounding `except` catches it,
and the per-asset process call returns `False` — the ledger then records
`success=false`, contradicting the claim. -/
theorem save_results_three_artifacts_process_false (stem ts : String) :
    save_results_paths stem ts =
      [stem ++ "_" ++ ts ++ "_detailed.txt",
       stem ++ "_" ++ ts ++ "_youtube.txt",
       stem ++ "_" ++ ts ++ ".json"] ∧
    (save_results_paths stem ts).length = 3 ∧
    process_save_step stem ts = false :=
  ⟨rfl, rfl, rfl⟩

/-- C2: for every strategy with `audio_only` and speedup above 1.0 (as the
120–240 minute tier produces), realizing the strategy extracts an
audio-only artifact with the speedup factor applied to the extracted audio
and yields a new temporary path distinct from the source
(`is_temp = true`).  `extract_audio` itself is modelled from spec §4.2
because its definition is absent from src/. -/
theorem audio_only_strategy_extraction (video_path : String) (s : Strategy)
    (ffmpeg_ok : Bool) (haudio : s.audio_only = true) (hsp : 1 < s.speedup) :
    (extract_audio video_path s.speedup).tempo = s.speedup ∧
    (extract_audio video_path s.speedup).path ≠ video_path ∧
    apply_direct_strategy video_path s ffmpeg_ok =
      ((extract_audio video_path s.speedup).path, true) := by
  have hpath : (extract_audio video_path s.speedup).path ≠ video_path := by
    simp only [extract_audio]
    intro h
    have hlen := congrArg String.length h
    have h14 : (".audio.tmp.m4a" : String).length = 14 := rfl
    rw [String.length_append, h14] at hlen
    omega
  refine ⟨?_, hpath, ?_⟩
  · simp [extract_audio, if_pos hsp]
  · simp [apply_direct_strategy, haudio, bne_iff_ne, hpath]

/-- Witness for C2: tier 4 (audio-only, speedup 2.0) on a concrete path. -/
theorem audio_only_strategy_extraction_witness :
    strategy_tier4.audio_only = true ∧ (1 : ℚ) < strategy_tier4.speedup ∧
    ((extract_audio "v.mp4" strategy_tier4.speedup).tempo = strategy_tier4.speedup ∧
     (extract_audio "v.mp4" strategy_tier4.speedup).path ≠ "v.mp4" ∧
     apply_direct_strategy "v.mp4" strategy_tier4 true =
       ((extract_audio "v.mp4" strategy_tier4.speedup).path, true)) :=
  ⟨rfl, by norm_num [strategy_tier4],
   audio_only_strategy_extraction "v.mp4" strategy_tier4 true rfl
     (by norm_num [strategy_tier4])⟩

/-- C3: the claim fails on the code.  `ModelManager.summarize_from_video`
passes six positional arguments (the last being `fps`) to
`GeminiClient.generate_from_video`, which only has five parameters — every
direct-mode invocation raises `TypeError` (caught as a per-backend
failure) — and the `GenerateContentConfig` of the generate call contains no
frame-rate field at all, so `frameRate` is never forwarded. -/
theorem video_fps_forwarding_fails :
    bind_positional generate_from_video_params summarize_from_video_call_args =
      .error "TypeError" ∧
    "fps" ∉ generate_from_video_params ∧
    "fps" ∉ generate_video_config_fields ∧
    "frame_rate" ∉ generate_video_config_fields :=
  ⟨rfl, by decide, by decide, by decide⟩

/-- C9, counterexample: the claim fails on the code.  A ledger entry with
`success=false` for the file's absolute path still causes the file to be
skipped, because the filter tests key membership only. -/
theorem skip_filter_counterexample :
    filter_unprocessed true id
      [("/videos/a.mp4", LedgerEntry.mk "2026-01-01T00:00:00" false)]
      ["/videos/a.mp4"] = [] := by
  decide

/-- C9, amended: while the skip-if-processed policy is enabled, a candidate
file is skipped if and only if the ledger contains an entry for its
canonicalized absolute path — regardless of that entry's `success` flag;
with the policy disabled nothing is filtered. -/
theorem skip_filter_membership (abspath : String → String)
    (ledger : List (String × LedgerEntry)) (files : List String) (vf : String) :
    (vf ∈ filter_unprocessed true abspath ledger files ↔
      vf ∈ files ∧ abspath vf ∉ ledger.map Prod.fst) ∧
    filter_unprocessed false abspath ledger files = files := by
  constructor
  · simp [filter_unprocessed, List.mem_filter, List.elem_iff]
  · rfl

end AkbSummarizer
